import Mathlib

/-!
# The generated handle wrapper `DjinniWrapperTestHelpers`

Embedding of `test-suite/generated-src/cwrapper/cw__test_helpers.hpp`:

```
struct DjinniWrapperTestHelpers final {
    DjinniWrapperTestHelpers(std::shared_ptr<::testsuite::TestHelpers>wo): wrapped_obj(wo) {};
    static std::shared_ptr<::testsuite::TestHelpers> get(djinni::Handle<DjinniWrapperTestHelpers> dw);
    static djinni::Handle<DjinniWrapperTestHelpers> wrap(std::shared_ptr<::testsuite::TestHelpers> obj);
    const std::shared_ptr<::testsuite::TestHelpers> wrapped_obj;
    std::atomic<size_t> ref_count {1};
};
```

* The class `::testsuite::TestHelpers` is declared in `test_helpers.hpp`, which is not
  part of the sources; it is a type parameter `TestHelpers` whose values are the
  identities of native objects.
* `size_t` is an unsigned machine integer of `w` bits; `ref_count` is an `Int` and every
  update is reduced modulo `2 ^ w` explicitly.
* The header only declares `get` and `wrap`; their bodies are modelled from the
  specification and marked as such.
-/

/-- `std::shared_ptr<T>` as the wrapper observes it: `none` is the empty pointer
(`nullptr`), `some o` points to the object `o`. Two shared pointers are equal exactly
when they are both empty or point to the same object. -/
abbrev shared_ptr (T : Type) : Type := Option T

/-- The struct `DjinniWrapperTestHelpers` (lines 18-26): the two data members, in the
order of declaration. `wrapped_obj` is `const`; `ref_count` is the value held by the
`std::atomic<size_t>`. -/
structure DjinniWrapperTestHelpers (TestHelpers : Type) where
  wrapped_obj : shared_ptr TestHelpers
  ref_count : Int
deriving DecidableEq, Repr

/-- The constructor `DjinniWrapperTestHelpers(wo)` (line 19): the member initialiser
`wrapped_obj(wo)` copies the argument, `ref_count` takes its default member initialiser
`{1}` (line 25), and the body `{}` is empty. -/
def DjinniWrapperTestHelpers.ctor {TestHelpers : Type} (wo : shared_ptr TestHelpers) :
    DjinniWrapperTestHelpers TestHelpers :=
  { wrapped_obj := wo, ref_count := 1 }

/-- An increment of the `std::atomic<size_t>` member `ref_count` (`fetch_add(1)`, `++`):
unsigned arithmetic modulo `2 ^ w`. No other member is written. -/
def DjinniWrapperTestHelpers.increment {TestHelpers : Type} (w : Nat)
    (dw : DjinniWrapperTestHelpers TestHelpers) : DjinniWrapperTestHelpers TestHelpers :=
  { dw with ref_count := (dw.ref_count + 1) % 2 ^ w }

/-- A decrement of the `std::atomic<size_t>` member `ref_count` (`fetch_sub(1)`, `--`):
unsigned arithmetic modulo `2 ^ w`, so a decrement of `0` wraps around. No other member
is written. -/
def DjinniWrapperTestHelpers.decrement {TestHelpers : Type} (w : Nat)
    (dw : DjinniWrapperTestHelpers TestHelpers) : DjinniWrapperTestHelpers TestHelpers :=
  { dw with ref_count := (dw.ref_count - 1) % 2 ^ w }

/-- The two updates an owner can make to `ref_count`. -/
inductive RefCountOp where
  | inc
  | dec
deriving DecidableEq, Repr

/-- One update of the counter applied to a wrapper. -/
def DjinniWrapperTestHelpers.step {TestHelpers : Type} (w : Nat)
    (dw : DjinniWrapperTestHelpers TestHelpers) :
    RefCountOp → DjinniWrapperTestHelpers TestHelpers
  | RefCountOp.inc => dw.increment w
  | RefCountOp.dec => dw.decrement w

/-- A sequence of updates of the counter, applied from left to right. -/
def DjinniWrapperTestHelpers.run {TestHelpers : Type} (w : Nat)
    (dw : DjinniWrapperTestHelpers TestHelpers) (ops : List RefCountOp) :
    DjinniWrapperTestHelpers TestHelpers :=
  ops.foldl (DjinniWrapperTestHelpers.step w) dw

namespace djinni

/-- Modelled from the spec: the template `djinni::Handle` of the support library, which
is not part of the sources. The glossary calls a handle an "opaque cross-boundary
reference standing in for a native object"; here it is the position of the wrapper it
refers to in the store of wrappers constructed so far. -/
structure Handle (α : Type) where
  ref : Nat
deriving DecidableEq, Repr

end djinni

/-- The wrappers constructed so far, in order of construction; a handle refers to one of
them by position. -/
abbrev WrapperStore (TestHelpers : Type) : Type := List (DjinniWrapperTestHelpers TestHelpers)

/-- Modelled from the spec: the body of `DjinniWrapperTestHelpers::wrap`, declared at
line 22 and defined outside the sources. The specification gives "construction-on-wrap"
and a conversion from "a shared-ownership native pointer" to "an opaque cross-boundary
handle": the wrapper is constructed from `obj` with the constructor of line 19, added to
the store, and the handle that refers to it is returned together with the new store. -/
def DjinniWrapperTestHelpers.wrap {TestHelpers : Type} (obj : shared_ptr TestHelpers)
    (store : WrapperStore TestHelpers) :
    djinni.Handle (DjinniWrapperTestHelpers TestHelpers) × WrapperStore TestHelpers :=
  ({ ref := store.length }, store ++ [DjinniWrapperTestHelpers.ctor obj])

/-- Modelled from the spec: the body of `DjinniWrapperTestHelpers::get`, declared at
line 21 and defined outside the sources. The specification gives the conversion from the
handle back to the shared pointer as "trivial accessor forwarding": the member
`wrapped_obj` of the wrapper the handle refers to. A handle that refers to no wrapper of
the store has no result (`none`). -/
def DjinniWrapperTestHelpers.get {TestHelpers : Type}
    (dw : djinni.Handle (DjinniWrapperTestHelpers TestHelpers))
    (store : WrapperStore TestHelpers) : Option (shared_ptr TestHelpers) :=
  (store[dw.ref]?).map DjinniWrapperTestHelpers.wrapped_obj

/-! ## Lemmas on the counter -/

/-- Running the empty sequence of updates changes nothing. -/
theorem DjinniWrapperTestHelpers.run_nil {TestHelpers : Type} (w : Nat)
    (dw : DjinniWrapperTestHelpers TestHelpers) : dw.run w [] = dw := rfl

/-- Running a sequence of updates: the first update, then the others. -/
theorem DjinniWrapperTestHelpers.run_cons {TestHelpers : Type} (w : Nat)
    (dw : DjinniWrapperTestHelpers TestHelpers) (op : RefCountOp) (ops : List RefCountOp) :
    dw.run w (op :: ops) = (dw.step w op).run w ops := rfl

/-- The modulus of `size_t` arithmetic is positive. -/
theorem two_pow_width_pos (w : Nat) : (0 : Int) < 2 ^ w := by positivity

/-- An update leaves the counter in the range of non-negative integers. -/
theorem DjinniWrapperTestHelpers.step_ref_count_nonneg {TestHelpers : Type} (w : Nat)
    (dw : DjinniWrapperTestHelpers TestHelpers) (op : RefCountOp) :
    0 ≤ (dw.step w op).ref_count := by
  have hne : (2 : Int) ^ w ≠ 0 := ne_of_gt (two_pow_width_pos w)
  cases op
  · exact Int.emod_nonneg _ hne
  · exact Int.emod_nonneg _ hne

/-- An update leaves the counter below `2 ^ w`. -/
theorem DjinniWrapperTestHelpers.step_ref_count_lt {TestHelpers : Type} (w : Nat)
    (dw : DjinniWrapperTestHelpers TestHelpers) (op : RefCountOp) :
    (dw.step w op).ref_count < 2 ^ w := by
  cases op
  · exact Int.emod_lt_of_pos _ (two_pow_width_pos w)
  · exact Int.emod_lt_of_pos _ (two_pow_width_pos w)

/-- An update does not write `wrapped_obj`. -/
theorem DjinniWrapperTestHelpers.step_wrapped_obj {TestHelpers : Type} (w : Nat)
    (dw : DjinniWrapperTestHelpers TestHelpers) (op : RefCountOp) :
    (dw.step w op).wrapped_obj = dw.wrapped_obj := by
  cases op <;> rfl

/-- A non-negative counter stays non-negative under any sequence of updates. -/
theorem DjinniWrapperTestHelpers.run_ref_count_nonneg {TestHelpers : Type} (w : Nat)
    (ops : List RefCountOp) :
    ∀ dw : DjinniWrapperTestHelpers TestHelpers, 0 ≤ dw.ref_count →
      0 ≤ (dw.run w ops).ref_count := by
  induction ops with
  | nil => intro dw h; exact h
  | cons op ops ih =>
    intro dw _
    rw [DjinniWrapperTestHelpers.run_cons]
    exact ih _ (DjinniWrapperTestHelpers.step_ref_count_nonneg w dw op)

/-- A counter in the range of `size_t` stays in it under any sequence of updates. -/
theorem DjinniWrapperTestHelpers.run_ref_count_lt {TestHelpers : Type} (w : Nat)
    (ops : List RefCountOp) :
    ∀ dw : DjinniWrapperTestHelpers TestHelpers, dw.ref_count < 2 ^ w →
      (dw.run w ops).ref_count < 2 ^ w := by
  induction ops with
  | nil => intro dw h; exact h
  | cons op ops ih =>
    intro dw _
    rw [DjinniWrapperTestHelpers.run_cons]
    exact ih _ (DjinniWrapperTestHelpers.step_ref_count_lt w dw op)

/-- No sequence of updates writes `wrapped_obj`. -/
theorem DjinniWrapperTestHelpers.run_wrapped_obj {TestHelpers : Type} (w : Nat)
    (ops : List RefCountOp) :
    ∀ dw : DjinniWrapperTestHelpers TestHelpers, (dw.run w ops).wrapped_obj = dw.wrapped_obj := by
  induction ops with
  | nil => intro dw; rfl
  | cons op ops ih =>
    intro dw
    rw [DjinniWrapperTestHelpers.run_cons, ih, DjinniWrapperTestHelpers.step_wrapped_obj]

/-- The counter is not bounded below by one: two decrements after construction wrap
around to the largest `size_t` value (here with `w = 64`). -/
theorem ref_count_wraps_below_zero :
    ((DjinniWrapperTestHelpers.ctor (some 7)).run 64
      [RefCountOp.dec, RefCountOp.dec]).ref_count = 2 ^ 64 - 1 := by
  decide

/-- A decrement after construction brings the counter to zero. -/
theorem ref_count_reaches_zero :
    ((DjinniWrapperTestHelpers.ctor (some 7)).run 64 [RefCountOp.dec]).ref_count = 0 := by
  decide

/-! ## Lemmas on the store of wrappers -/

/-- The handle returned by `wrap` refers to the wrapper that `wrap` constructed. -/
theorem DjinniWrapperTestHelpers.wrap_lookup {TestHelpers : Type}
    (obj : shared_ptr TestHelpers) (store : WrapperStore TestHelpers) :
    (DjinniWrapperTestHelpers.wrap obj store).2[(DjinniWrapperTestHelpers.wrap obj store).1.ref]?
      = some (DjinniWrapperTestHelpers.ctor obj) := by
  simp [DjinniWrapperTestHelpers.wrap]

/-- The handles handed out before a call of `wrap` refer to the same wrappers after it. -/
theorem DjinniWrapperTestHelpers.get_wrap_of_lt {TestHelpers : Type}
    (obj : shared_ptr TestHelpers) (store : WrapperStore TestHelpers)
    (dw : djinni.Handle (DjinniWrapperTestHelpers TestHelpers)) (h : dw.ref < store.length) :
    DjinniWrapperTestHelpers.get dw (DjinniWrapperTestHelpers.wrap obj store).2
      = DjinniWrapperTestHelpers.get dw store := by
  simp [DjinniWrapperTestHelpers.get, DjinniWrapperTestHelpers.wrap,
    List.getElem?_append_left h]

/-! ## The claims -/

/-- C1: `get` applied to the handle that `wrap obj` returns yields a shared pointer to the
same object as `obj` (the empty pointer when `obj` is empty), whatever wrappers were
constructed before. -/
theorem get_wrap_eq {TestHelpers : Type} (obj : shared_ptr TestHelpers)
    (store : WrapperStore TestHelpers) :
    DjinniWrapperTestHelpers.get (DjinniWrapperTestHelpers.wrap obj store).1
      (DjinniWrapperTestHelpers.wrap obj store).2 = some obj := by
  unfold DjinniWrapperTestHelpers.get
  rw [DjinniWrapperTestHelpers.wrap_lookup]
  rfl

/-- C2: the reference count starts at one: the wrapper that the constructor produces from
any shared pointer `wo` has `ref_count = 1`, and so the count is the same for every other
argument `wo2`. -/
theorem ctor_ref_count_eq_one {TestHelpers : Type} (wo : shared_ptr TestHelpers) :
    (DjinniWrapperTestHelpers.ctor wo).ref_count = 1 ∧
      ∀ wo2 : shared_ptr TestHelpers,
        (DjinniWrapperTestHelpers.ctor wo2).ref_count
          = (DjinniWrapperTestHelpers.ctor wo).ref_count :=
  ⟨rfl, fun _ => rfl⟩

/-- C3: the counter stays non-negative: after construction from any `wo` and any sequence
of increments and decrements in arithmetic modulo `2 ^ w`, `ref_count ≥ 0`. -/
theorem ref_count_nonneg {TestHelpers : Type} (w : Nat) (wo : shared_ptr TestHelpers)
    (ops : List RefCountOp) :
    0 ≤ ((DjinniWrapperTestHelpers.ctor wo).run w ops).ref_count :=
  DjinniWrapperTestHelpers.run_ref_count_nonneg w ops (DjinniWrapperTestHelpers.ctor wo)
    Int.one_nonneg

/-- C5: the constructor is total: for every shared pointer `wo` it yields a wrapper, and
for the empty pointer it yields the wrapper of the empty pointer with a count of one;
no argument is rejected. -/
theorem ctor_total {TestHelpers : Type} :
    (∀ wo : shared_ptr TestHelpers,
        ∃ dw : DjinniWrapperTestHelpers TestHelpers, DjinniWrapperTestHelpers.ctor wo = dw) ∧
      ∃ dw : DjinniWrapperTestHelpers TestHelpers,
        DjinniWrapperTestHelpers.ctor none = dw ∧ dw.wrapped_obj = none ∧ dw.ref_count = 1 :=
  ⟨fun wo => ⟨DjinniWrapperTestHelpers.ctor wo, rfl⟩,
    ⟨DjinniWrapperTestHelpers.ctor none, rfl, rfl, rfl⟩⟩

/-- C6: the wrapper holds the shared pointer it was built from: the wrapper that the
constructor produces from `wo` has `wrapped_obj = wo`, also when `wo` is empty. -/
theorem ctor_wrapped_obj_eq {TestHelpers : Type} (wo : shared_ptr TestHelpers) :
    (DjinniWrapperTestHelpers.ctor wo).wrapped_obj = wo :=
  rfl

/-- C7: changing the reference count leaves the wrapped pointer unchanged: after any
sequence of increments and decrements of `ref_count`, `wrapped_obj` is still the pointer
given to the constructor. -/
theorem wrapped_obj_eq_after_run {TestHelpers : Type} (w : Nat)
    (wo : shared_ptr TestHelpers) (ops : List RefCountOp) :
    ((DjinniWrapperTestHelpers.ctor wo).run w ops).wrapped_obj = wo := by
  rw [DjinniWrapperTestHelpers.run_wrapped_obj]
  rfl
